import Mathlib

/-!
Verification of the budget-tracker expense service (`src/main.py`).

The service is a single-table CRUD layer over PostgreSQL exposed through
FastAPI.  We shallowly embed its data model and handlers:

* monetary amounts are modelled in integer cents, which is exact for the
  `DECIMAL(10,2)` column the code stores amounts in;
* the expense table is a `List Expense`;
* each handler becomes a pure function returning `Except Err _`, where an
  `Err` carries the HTTP status of the failure.  Pydantic/Query constraint
  violations are rejected by FastAPI before the handler body runs and are
  answered with HTTP status 422 (FastAPI's validation-error status); the
  explicit `HTTPException`s raised inside the handlers carry the statuses
  written in the code (400, 404).
* `datetime.strptime(s, "%Y-%m-%d")` is embedded by `parseYmd`, following
  CPython's `_strptime` regexes: `%Y` matches exactly four digits, `%m`
  matches `1[0-2]|0[1-9]|[1-9]` and `%d` matches `3[01]|[12]\d|0[1-9]|[1-9]`
  (so zero padding of month and day is optional), the separators are
  literal dashes, no input may remain, and the `datetime` constructor then
  rejects days that do not exist in the month and years outside 1..9999.
-/

namespace Budget

/-- A calendar date, as in Python's `datetime.date`. -/
structure Date where
  year : Nat
  month : Nat
  day : Nat
deriving DecidableEq, Repr

/-- Gregorian leap-year rule (as used by `datetime.date`). -/
def isLeap (y : Nat) : Bool :=
  y % 4 == 0 && (y % 100 != 0 || y % 400 == 0)

/-- Number of days in month `m` of year `y`. -/
def daysInMonth (y m : Nat) : Nat :=
  if m = 2 then (if isLeap y then 29 else 28)
  else if m = 4 ∨ m = 6 ∨ m = 9 ∨ m = 11 then 30
  else 31

/-- A well-formed `datetime.date` value (`MINYEAR = 1`, `MAXYEAR = 9999`). -/
def Date.valid (d : Date) : Bool :=
  1 ≤ d.year && d.year ≤ 9999 &&
  1 ≤ d.month && d.month ≤ 12 &&
  1 ≤ d.day && d.day ≤ daysInMonth d.year d.month

/-- Numeric key realising the chronological order on dates; PostgreSQL's
`DATE` comparisons and Python's `date` comparisons both follow it. -/
def Date.key (d : Date) : Nat :=
  d.year * 10000 + d.month * 100 + d.day

/-- Python `d - timedelta(days=1)` on a well-formed date. -/
def Date.predDay (d : Date) : Date :=
  if 1 < d.day then ⟨d.year, d.month, d.day - 1⟩
  else if 1 < d.month then ⟨d.year, d.month - 1, daysInMonth d.year (d.month - 1)⟩
  else ⟨d.year - 1, 12, 31⟩

/-- The month range of `get_monthly_summary` (src/main.py lines 212-220):
start is the first of the month; the end is the first day of the following
month (January of `year + 1` when `month = 12`) minus one day. -/
def monthRange (year month : Nat) : Date × Date :=
  (⟨year, month, 1⟩,
   if month = 12 then Date.predDay ⟨year + 1, 1, 1⟩
   else Date.predDay ⟨year, month + 1, 1⟩)

/-- ASCII digit character for `k ≤ 9`. -/
def digitChar (k : Nat) : Char := Char.ofNat (48 + k)

/-- Numeric value of an ASCII digit character. -/
def digitVal (c : Char) : Nat := c.toNat - 48

/-- Value of a big-endian ASCII digit string. -/
def natOfDigits (cs : List Char) : Nat :=
  cs.foldl (fun a c => a * 10 + digitVal c) 0

def allDigits (cs : List Char) : Bool := cs.all (·.isDigit)

/-- Split a character list at every dash; the groups between the literal
dashes of the `%Y-%m-%d` pattern. -/
def splitDash : List Char → List (List Char)
  | [] => [[]]
  | c :: rest =>
      if c = '-' then [] :: splitDash rest
      else
        match splitDash rest with
        | [] => [[c]]
        | g :: gs => (c :: g) :: gs

/-- The group checks of `strptime("%Y-%m-%d")`: the year group is exactly
four digits, the month and day groups are one or two digits (the regexes
`1[0-2]|0[1-9]|[1-9]` and `3[01]|[12]\d|0[1-9]|[1-9]`, so zero padding is
optional), and the `datetime` constructor then rejects values outside a
valid calendar date (`MINYEAR = 1`). -/
def parseGroups (ys ms ds : List Char) : Option Date :=
  if ys.length = 4 ∧ allDigits ys
      ∧ 1 ≤ ms.length ∧ ms.length ≤ 2 ∧ allDigits ms
      ∧ 1 ≤ ds.length ∧ ds.length ≤ 2 ∧ allDigits ds then
    let y := natOfDigits ys
    let m := natOfDigits ms
    let d := natOfDigits ds
    if 1 ≤ y ∧ 1 ≤ m ∧ m ≤ 12 ∧ 1 ≤ d ∧ d ≤ daysInMonth y m then
      some ⟨y, m, d⟩
    else none
  else none

/-- `datetime.strptime(s, "%Y-%m-%d")`, embedded after CPython's
`_strptime` regexes: three groups separated by literal dashes with nothing
remaining after the day group, checked by `parseGroups`. -/
def parseYmd (s : String) : Option Date :=
  match splitDash s.toList with
  | [ys, ms, ds] => parseGroups ys ms ds
  | _ => none

/-- The strict `YYYY-MM-DD` form as the spec words it: four-digit year and
two-digit, zero-padded month and day naming a valid calendar date.
Written from the spec for comparison with the code's `parseYmd`. -/
def strictYmd (s : String) : Bool :=
  match s.toList with
  | [y1, y2, y3, y4, c1, m1, m2, c2, d1, d2] =>
      c1 == '-' && c2 == '-' &&
      allDigits [y1, y2, y3, y4, m1, m2, d1, d2] &&
      Date.valid ⟨natOfDigits [y1, y2, y3, y4], natOfDigits [m1, m2],
                  natOfDigits [d1, d2]⟩
  | _ => false

/-- Python `date.isoformat()`: zero-padded 4-digit year, 2-digit month and
2-digit day separated by dashes. -/
def Date.iso (d : Date) : String :=
  ⟨[digitChar (d.year / 1000 % 10), digitChar (d.year / 100 % 10),
    digitChar (d.year / 10 % 10), digitChar (d.year % 10), '-',
    digitChar (d.month / 10 % 10), digitChar (d.month % 10), '-',
    digitChar (d.day / 10 % 10), digitChar (d.day % 10)]⟩

/-- Python `str.strip()` / the SQL-side trimming: surrounding whitespace
removed. -/
def strTrim (s : String) : String :=
  ⟨((s.toList.dropWhile Char.isWhitespace).reverse.dropWhile Char.isWhitespace).reverse⟩

/-- SQL `lower()` / case folding used by the category filter. -/
def strLower (s : String) : String := ⟨s.toList.map Char.toLower⟩

/-- One row of the `expenses` table.  `amount` is in integer cents, exact
for the `DECIMAL(10,2)` column; `createdAt` is the opaque insertion
timestamp. -/
structure Expense where
  id : Nat
  amount : Int
  category : String
  description : String
  expenseDate : Date
  createdAt : Nat
deriving DecidableEq, Repr

/-- An HTTP error response: status code and detail message. -/
structure Err where
  status : Nat
  detail : String
deriving DecidableEq, Repr

/-- Request body of `POST /expenses` (`ExpenseCreate` in src/main.py lines
52-56): `amount: float = Field(..., gt=0)`, `category: str =
Field(..., min_length=1)`, optional `description`, optional string
`expense_date`. -/
structure ExpenseCreate where
  amount : Int
  category : String
  description : Option String
  expenseDate : Option String
deriving DecidableEq, Repr

/-- Pydantic validation of `ExpenseCreate`: `amount > 0` and raw
`category` length at least 1.  FastAPI answers a pydantic validation
failure with HTTP status 422 before the handler body runs. -/
def validateExpenseCreate (p : ExpenseCreate) : Option Err :=
  if p.amount ≤ 0 then some ⟨422, "Input should be greater than 0"⟩
  else if p.category.length < 1 then
    some ⟨422, "String should have at least 1 character"⟩
  else none

/-- `add_expense` (src/main.py lines 85-116).  `today` stands for
`date.today()`, `nextId` for the next value of `expenses_id_seq`, `now`
for the insertion timestamp.  The handler substitutes today for a missing
or empty (falsy) `expense_date`, validates it with `strptime` (400 on
failure) before touching the database, inserts the trimmed strings, and
returns the table after insertion together with the re-read row. -/
def addExpense (store : List Expense) (nextId : Nat) (today : Date) (now : Nat)
    (p : ExpenseCreate) : Except Err (List Expense × Expense) :=
  match validateExpenseCreate p with
  | some e => .error e
  | none =>
      let edStr := match p.expenseDate with
        | none => today.iso
        | some s => if s = "" then today.iso else s
      match parseYmd edStr with
      | none => .error ⟨400, "expense_date must be YYYY-MM-DD"⟩
      | some d =>
          let row : Expense :=
            ⟨nextId, p.amount, strTrim p.category,
             strTrim (p.description.getD ""), d, now⟩
          .ok (store ++ [row], row)

/-- `ORDER BY expense_date DESC, id DESC`: `a` may appear no later than
`b`. -/
def listOrd (a b : Expense) : Prop :=
  b.expenseDate.key < a.expenseDate.key ∨
    (b.expenseDate.key = a.expenseDate.key ∧ b.id ≤ a.id)

instance : DecidableRel listOrd := fun a b => by unfold listOrd; infer_instance

instance : IsTotal Expense listOrd :=
  ⟨by intro a b; unfold listOrd; omega⟩

instance : IsTrans Expense listOrd :=
  ⟨by intro a b c hab hbc; unfold listOrd at hab hbc ⊢; omega⟩

/-- Row filter of `list_expenses`: each date clause is added only for a
truthy (non-empty) parameter and compares `DATE` values; the category
clause compares `lower(category)` against the lowered, trimmed filter. -/
def keepRow (startD endD cat : Option String) (e : Expense) : Bool :=
  (match startD.bind parseYmd with
   | some d => decide (d.key ≤ e.expenseDate.key)
   | none => true) &&
  (match endD.bind parseYmd with
   | some d => decide (e.expenseDate.key ≤ d.key)
   | none => true) &&
  (match cat with
   | some c => if c = "" then true else strLower e.category == strLower (strTrim c)
   | none => true)

/-- Default query parameter `limit: int = Query(200, ge=1, le=1000)`. -/
def defaultLimit : Int := 200

/-- Default query parameter `offset: int = Query(0, ge=0)`. -/
def defaultOffset : Int := 0

/-- `list_expenses` (src/main.py lines 118-169).  FastAPI checks the
`Query` constraints (`limit` in [1, 1000], `offset ≥ 0`) before the
handler body and answers violations with 422; the handler then validates
each supplied date string with `strptime` (400 on failure) before the
database is touched, and the SQL applies the filters, orders by
`expense_date DESC, id DESC` and slices with `LIMIT`/`OFFSET`. -/
def listExpenses (store : List Expense) (startD endD cat : Option String)
    (limit offset : Int) : Except Err (List Expense) :=
  if limit < 1 ∨ 1000 < limit then .error ⟨422, "limit out of range"⟩
  else if offset < 0 then .error ⟨422, "offset out of range"⟩
  else if startD.any (fun s => (parseYmd s).isNone) then
    .error ⟨400, "start_date must be YYYY-MM-DD"⟩
  else if endD.any (fun s => (parseYmd s).isNone) then
    .error ⟨400, "end_date must be YYYY-MM-DD"⟩
  else
    .ok (((List.insertionSort listOrd (store.filter (keepRow startD endD cat))).drop
      offset.toNat).take limit.toNat)

/-- `get_expense_by_id` (src/main.py lines 171-189). -/
def getExpense (store : List Expense) (id : Nat) : Except Err Expense :=
  match store.find? (fun e => e.id == id) with
  | none => .error ⟨404, "Expense not found"⟩
  | some e => .ok e

/-- `delete_expense` (src/main.py lines 191-204): existence check first
(404 when absent), then `DELETE FROM expenses WHERE id = %s`; returns the
table after deletion and the deleted id for confirmation. -/
def deleteExpense (store : List Expense) (id : Nat) :
    Except Err (List Expense × Nat) :=
  match store.find? (fun e => e.id == id) with
  | none => .error ⟨404, "Expense not found"⟩
  | some _ => .ok (store.filter (fun e => e.id != id), id)

/-- One `by_category` entry of the monthly summary. -/
structure MonthlySummaryRow where
  category : String
  total : Int
deriving DecidableEq, Repr

/-- Response of `GET /summary/monthly`. -/
structure MonthlySummary where
  year : Nat
  month : Nat
  currency : String
  grandTotal : Int
  byCategory : List MonthlySummaryRow
deriving DecidableEq, Repr

/-- `ORDER BY total DESC` on summary rows. -/
def totalOrd (a b : MonthlySummaryRow) : Prop := b.total ≤ a.total

instance : DecidableRel totalOrd := fun a b => by unfold totalOrd; infer_instance

instance : IsTotal MonthlySummaryRow totalOrd :=
  ⟨by intro a b; unfold totalOrd; omega⟩

instance : IsTrans MonthlySummaryRow totalOrd :=
  ⟨by intro a b c hab hbc; unfold totalOrd at hab hbc ⊢; omega⟩

/-- `SUM(amount)` over the rows of `l` whose stored category is exactly
`c` — SQL `GROUP BY category` groups case-sensitively. -/
def categoryTotal (l : List Expense) (c : String) : Int :=
  ((l.filter (fun e => e.category == c)).map (fun e => e.amount)).sum

/-- Membership filter of the summary queries: the inclusive range
`expense_date >= start AND expense_date <= end` over `monthRange`. -/
def inMonth (year month : Nat) (e : Expense) : Bool :=
  decide ((monthRange year month).1.key ≤ e.expenseDate.key) &&
  decide (e.expenseDate.key ≤ (monthRange year month).2.key)

/-- `get_monthly_summary` (src/main.py lines 206-250).  FastAPI rejects
`year` outside [2000, 2100] and `month` outside [1, 12] with 422; the two
SQL queries aggregate over the inclusive `monthRange`.  `ROUND(.., 2)` is
the identity on sums of `DECIMAL(10,2)` values, which integer cents
represent exactly, and `COALESCE(.., 0)` is the empty sum. -/
def monthlySummary (store : List Expense) (year month : Int)
    (currency : String) : Except Err MonthlySummary :=
  if year < 2000 ∨ 2100 < year ∨ month < 1 ∨ 12 < month then
    .error ⟨422, "year or month out of range"⟩
  else
    let rows := store.filter (inMonth year.toNat month.toNat)
    let cats := (rows.map (fun e => e.category)).dedup
    let byCat := List.insertionSort totalOrd
      (cats.map (fun c => ⟨c, categoryTotal rows c⟩))
    .ok ⟨year.toNat, month.toNat, currency,
         ((rows.map (fun e => e.amount)).sum), byCat⟩

end Budget

namespace Budget

/-- C1: for every year in [2000, 2100] and month in [1, 12], the range of
`get_monthly_summary` runs from the first day of the month to the last day
of that month — first day of the following month minus one day; for
month 12 it ends on December 31 of the same year, and February 2024 (a
leap year) ranges through February 29. -/
theorem monthRange_first_last (y m : Nat)
    (hy1 : 2000 ≤ y) (hy2 : y ≤ 2100) (hm1 : 1 ≤ m) (hm2 : m ≤ 12) :
    (monthRange y m).1 = ⟨y, m, 1⟩ ∧
    (monthRange y m).2 = ⟨y, m, daysInMonth y m⟩ ∧
    (monthRange y 12).2 = ⟨y, 12, 31⟩ ∧
    (monthRange 2024 2).2 = ⟨2024, 2, 29⟩ := by
  refine ⟨rfl, ?_, ?_, by decide⟩
  · interval_cases m <;>
      simp [monthRange, Date.predDay, daysInMonth]
  · simp [monthRange, Date.predDay, daysInMonth]

/-- Witness for `monthRange_first_last` at year 2024, month 2. -/
theorem monthRange_first_last_witness :
    (monthRange 2024 2).1 = ⟨2024, 2, 1⟩ ∧
    (monthRange 2024 2).2 = ⟨2024, 2, daysInMonth 2024 2⟩ ∧
    (monthRange 2024 12).2 = ⟨2024, 12, 31⟩ ∧
    (monthRange 2024 2).2 = ⟨2024, 2, 29⟩ :=
  monthRange_first_last 2024 2 (by decide) (by decide) (by decide) (by decide)

/-- Splitting a sum of amounts along a Boolean predicate on the rows. -/
lemma sum_amount_filter_split (l : List Expense) (p : Expense → Bool) :
    ((l.filter p).map (fun e => e.amount)).sum
      + ((l.filter (fun e => !p e)).map (fun e => e.amount)).sum
      = (l.map (fun e => e.amount)).sum := by
  induction l with
  | nil => simp
  | cons a l ih =>
      by_cases h : p a = true
      · simp [List.filter_cons, h, ih.symm]
        ring
      · simp only [Bool.not_eq_true] at h
        simp [List.filter_cons, h, ih.symm]
        ring

/-- Summing the per-category totals over a duplicate-free list of
categories that covers every row reproduces the total over all rows. -/
lemma sum_categoryTotal_eq (cs : List String) (l : List Expense)
    (hnd : cs.Nodup) (hcov : ∀ e ∈ l, e.category ∈ cs) :
    (cs.map (fun c => categoryTotal l c)).sum = (l.map (fun e => e.amount)).sum := by
  induction cs generalizing l with
  | nil =>
      have hl : l = [] := by
        cases l with
        | nil => rfl
        | cons a l => exact absurd (hcov a (by simp)) (by simp)
      subst hl; simp
  | cons c cs ih =>
      have hnd' : cs.Nodup := hnd.of_cons
      have hcne : c ∉ cs := by
        intro hmem
        exact (List.nodup_cons.mp hnd).1 hmem
      have hsub : ∀ e ∈ l.filter (fun e => !(e.category == c)), e.category ∈ cs := by
        intro e he
        rcases List.mem_filter.mp he with ⟨hel, hne⟩
        rcases List.mem_cons.mp (hcov e hel) with h | h
        · simp [h] at hne
        · exact h
      have hfix : ∀ c2 ∈ cs,
          categoryTotal l c2 = categoryTotal (l.filter (fun e => !(e.category == c))) c2 := by
        intro c2 hc2
        unfold categoryTotal
        rw [List.filter_filter]
        have heq : l.filter (fun e => e.category == c2)
            = l.filter (fun a => a.category == c2 && !(a.category == c)) := by
          apply List.filter_congr
          intro e _
          by_cases h : e.category = c2
          · have hne : c2 ≠ c := fun hcc => hcne (hcc ▸ hc2)
            simp [h, hne]
          · simp [h]
        rw [heq]
      calc (List.map (fun x => categoryTotal l x) (c :: cs)).sum
          = categoryTotal l c + (cs.map (fun x => categoryTotal l x)).sum := by
            simp
        _ = categoryTotal l c
              + (cs.map (fun x =>
                  categoryTotal (l.filter (fun e => !(e.category == c))) x)).sum := by
            rw [List.map_congr_left hfix]
        _ = categoryTotal l c
              + ((l.filter (fun e => !(e.category == c))).map (fun e => e.amount)).sum := by
            rw [ih _ hnd' hsub]
        _ = (l.map (fun e => e.amount)).sum := by
            rw [← sum_amount_filter_split l (fun e => e.category == c)]
            rfl

/-- C2: the per-category totals of the monthly summary sum to its grand
total — exactly, hence within the 0.01 rounding tolerance the spec allows
(amounts are integer cents, on which `ROUND(.., 2)` is the identity). -/
theorem summary_byCategory_sum_eq_grandTotal
    (store : List Expense) (year month : Int) (cur : String)
    (s : MonthlySummary) (h : monthlySummary store year month cur = .ok s) :
    (s.byCategory.map (fun r => r.total)).sum = s.grandTotal := by
  unfold monthlySummary at h
  split at h
  · exact absurd h (by simp)
  · simp only [Except.ok.injEq] at h
    subst h
    simp only
    have hperm :
        (List.insertionSort totalOrd
          (((store.filter (inMonth year.toNat month.toNat)).map
              (fun e => e.category)).dedup.map
            (fun c => (⟨c, categoryTotal (store.filter (inMonth year.toNat month.toNat)) c⟩ :
              MonthlySummaryRow)))).Perm
          (((store.filter (inMonth year.toNat month.toNat)).map
              (fun e => e.category)).dedup.map
            (fun c => (⟨c, categoryTotal (store.filter (inMonth year.toNat month.toNat)) c⟩ :
              MonthlySummaryRow))) :=
      List.perm_insertionSort _ _
    rw [(hperm.map (fun r => r.total)).sum_eq, List.map_map]
    have hcov : ∀ e ∈ store.filter (inMonth year.toNat month.toNat),
        e.category ∈ ((store.filter (inMonth year.toNat month.toNat)).map
          (fun e => e.category)).dedup := by
      intro e he
      rw [List.mem_dedup]
      exact List.mem_map.mpr ⟨e, he, rfl⟩
    exact sum_categoryTotal_eq _ _ (List.nodup_dedup _) hcov

/-- Witness for `summary_byCategory_sum_eq_grandTotal` on a concrete
two-category table for March 2024. -/
theorem summary_byCategory_sum_witness :
    ((MonthlySummary.byCategory
        ⟨2024, 3, "IDR", 1250,
         [⟨"transit", 1000⟩, ⟨"coffee", 250⟩]⟩).map (fun r => r.total)).sum
      = MonthlySummary.grandTotal
          ⟨2024, 3, "IDR", 1250, [⟨"transit", 1000⟩, ⟨"coffee", 250⟩]⟩ :=
  summary_byCategory_sum_eq_grandTotal
    [⟨1, 250, "coffee", "", ⟨2024, 3, 5⟩, 0⟩,
     ⟨2, 1000, "transit", "", ⟨2024, 3, 7⟩, 0⟩,
     ⟨3, 777, "coffee", "", ⟨2024, 4, 1⟩, 0⟩]
    2024 3 "IDR" _ rfl

/-- C3: every successful `list` result is sorted by `expense_date`
descending with ties broken by `id` descending — for any two adjacent
results, the first does not precede the second under that ordering. -/
theorem listExpenses_sorted (store : List Expense) (sd ed cat : Option String)
    (lim off : Int) (res : List Expense)
    (h : listExpenses store sd ed cat lim off = .ok res) :
    res.Pairwise (fun a b => b.expenseDate.key < a.expenseDate.key ∨
      (b.expenseDate.key = a.expenseDate.key ∧ b.id ≤ a.id)) := by
  unfold listExpenses at h
  split at h
  · exact absurd h (by simp)
  · split at h
    · exact absurd h (by simp)
    · split at h
      · exact absurd h (by simp)
      · split at h
        · exact absurd h (by simp)
        · simp only [Except.ok.injEq] at h
          subst h
          have hs : List.Sorted listOrd
              (List.insertionSort listOrd (store.filter (keepRow sd ed cat))) :=
            List.sorted_insertionSort listOrd _
          exact hs.sublist ((List.take_sublist _ _).trans (List.drop_sublist _ _))

/-- Witness for `listExpenses_sorted` on a table with a date tie. -/
theorem listExpenses_sorted_witness :
    ([⟨3, 10, "a", "", ⟨2024, 3, 7⟩, 0⟩, ⟨2, 20, "b", "", ⟨2024, 3, 7⟩, 0⟩,
      ⟨1, 30, "c", "", ⟨2024, 3, 5⟩, 0⟩] : List Expense).Pairwise
      (fun a b => b.expenseDate.key < a.expenseDate.key ∨
        (b.expenseDate.key = a.expenseDate.key ∧ b.id ≤ a.id)) :=
  listExpenses_sorted
    [⟨1, 30, "c", "", ⟨2024, 3, 5⟩, 0⟩, ⟨2, 20, "b", "", ⟨2024, 3, 7⟩, 0⟩,
     ⟨3, 10, "a", "", ⟨2024, 3, 7⟩, 0⟩]
    none none none 200 0 _ rfl

/-- C4: for two stored same-date expenses whose categories differ only in
letter case, `list` with a category filter matching either casing (after
trimming) returns both rows, while the monthly summary groups
case-sensitively and reports two separate `by_category` entries keyed by
the stored casings. -/
theorem case_filter_vs_grouping
    (e1 e2 : Expense) (f cur : String) (y m : Int)
    (hcne : e1.category ≠ e2.category)
    (hlow : strLower e1.category = strLower e2.category)
    (hdate : e1.expenseDate = e2.expenseDate)
    (hf : f ≠ "")
    (hmatch : strLower (strTrim f) = strLower e1.category)
    (hy1 : 2000 ≤ y) (hy2 : y ≤ 2100) (hm1 : 1 ≤ m) (hm2 : m ≤ 12)
    (hin : inMonth y.toNat m.toNat e1 = true) :
    (∃ res, listExpenses [e1, e2] none none (some f) defaultLimit defaultOffset = .ok res) ∧
    (∀ res, listExpenses [e1, e2] none none (some f) defaultLimit defaultOffset = .ok res →
       e1 ∈ res ∧ e2 ∈ res ∧ res.length = 2) ∧
    (∃ s, monthlySummary [e1, e2] y m cur = .ok s) ∧
    (∀ s, monthlySummary [e1, e2] y m cur = .ok s →
       s.byCategory.length = 2 ∧
       e1.category ∈ s.byCategory.map (fun r => r.category) ∧
       e2.category ∈ s.byCategory.map (fun r => r.category)) := by
  have hkeep1 : keepRow none none (some f) e1 = true := by
    unfold keepRow
    simp [hf, hmatch]
  have hkeep2 : keepRow none none (some f) e2 = true := by
    unfold keepRow
    simp [hf, hmatch, hlow.symm.trans hmatch.symm]
  have hfilter : ([e1, e2].filter (keepRow none none (some f))) = [e1, e2] := by
    simp [hkeep1, hkeep2]
  have hlist : listExpenses [e1, e2] none none (some f) defaultLimit defaultOffset =
      .ok (List.insertionSort listOrd [e1, e2]) := by
    unfold listExpenses defaultLimit defaultOffset
    rw [if_neg (by omega), if_neg (by omega)]
    simp only [Option.any_none, Bool.false_eq_true, if_false, hfilter]
    rw [show ((0 : Int).toNat) = 0 from rfl, show ((200 : Int).toNat) = 200 from rfl,
      List.drop_zero, List.take_of_length_le (by rw [List.length_insertionSort]; norm_num)]
  have hin2 : inMonth y.toNat m.toNat e2 = true := by
    unfold inMonth at hin ⊢
    rw [← hdate]
    exact hin
  have hrows : ([e1, e2].filter (inMonth y.toNat m.toNat)) = [e1, e2] := by
    simp [hin, hin2]
  have hdedup : ([e1.category, e2.category] : List String).dedup = [e1.category, e2.category] := by
    rw [List.dedup_cons_of_not_mem (by simp [hcne]), List.dedup_cons_of_not_mem (by simp),
      List.dedup_nil]
  have hsum : monthlySummary [e1, e2] y m cur =
      .ok ⟨y.toNat, m.toNat, cur, (([e1, e2]).map (fun e => e.amount)).sum,
        List.insertionSort totalOrd
          [⟨e1.category, categoryTotal [e1, e2] e1.category⟩,
           ⟨e2.category, categoryTotal [e1, e2] e2.category⟩]⟩ := by
    unfold monthlySummary
    rw [if_neg (by omega)]
    simp only [hrows, List.map_cons, List.map_nil, hdedup]
  refine ⟨⟨_, hlist⟩, ?_, ⟨_, hsum⟩, ?_⟩
  · intro res hres
    rw [hlist] at hres
    cases hres
    refine ⟨?_, ?_, ?_⟩
    · exact (List.mem_insertionSort listOrd).mpr (by simp)
    · exact (List.mem_insertionSort listOrd).mpr (by simp)
    · rw [List.length_insertionSort]
      rfl
  · intro s hs
    rw [hsum] at hs
    cases hs
    refine ⟨by rw [List.length_insertionSort]; rfl, ?_, ?_⟩
    · refine List.mem_map.mpr ⟨⟨e1.category, categoryTotal [e1, e2] e1.category⟩,
        (List.mem_insertionSort totalOrd).mpr (by simp), rfl⟩
    · refine List.mem_map.mpr ⟨⟨e2.category, categoryTotal [e1, e2] e2.category⟩,
        (List.mem_insertionSort totalOrd).mpr (by simp), rfl⟩

/-- Witness for `case_filter_vs_grouping`: categories "food" and "Food"
on 2024-03-15, filter "FOOD", summary for March 2024. -/
theorem case_filter_vs_grouping_witness :
    ((⟨1, 100, "food", "", ⟨2024, 3, 15⟩, 0⟩ : Expense) ∈
        ([⟨2, 200, "Food", "", ⟨2024, 3, 15⟩, 0⟩,
          ⟨1, 100, "food", "", ⟨2024, 3, 15⟩, 0⟩] : List Expense) ∧
     (⟨2, 200, "Food", "", ⟨2024, 3, 15⟩, 0⟩ : Expense) ∈
        ([⟨2, 200, "Food", "", ⟨2024, 3, 15⟩, 0⟩,
          ⟨1, 100, "food", "", ⟨2024, 3, 15⟩, 0⟩] : List Expense) ∧
     ([⟨2, 200, "Food", "", ⟨2024, 3, 15⟩, 0⟩,
       ⟨1, 100, "food", "", ⟨2024, 3, 15⟩, 0⟩] : List Expense).length = 2) ∧
    ((MonthlySummary.mk 2024 3 "IDR" 300
        [⟨"Food", 200⟩, ⟨"food", 100⟩]).byCategory.length = 2 ∧
     "food" ∈ (MonthlySummary.mk 2024 3 "IDR" 300
        [⟨"Food", 200⟩, ⟨"food", 100⟩]).byCategory.map (fun r => r.category) ∧
     "Food" ∈ (MonthlySummary.mk 2024 3 "IDR" 300
        [⟨"Food", 200⟩, ⟨"food", 100⟩]).byCategory.map (fun r => r.category)) :=
  ⟨(case_filter_vs_grouping
      ⟨1, 100, "food", "", ⟨2024, 3, 15⟩, 0⟩ ⟨2, 200, "Food", "", ⟨2024, 3, 15⟩, 0⟩
      "FOOD" "IDR" 2024 3 (by decide) (by decide) (by decide) (by decide) (by decide)
      (by decide) (by decide) (by decide) (by decide) (by decide)).2.1 _ rfl,
   (case_filter_vs_grouping
      ⟨1, 100, "food", "", ⟨2024, 3, 15⟩, 0⟩ ⟨2, 200, "Food", "", ⟨2024, 3, 15⟩, 0⟩
      "FOOD" "IDR" 2024 3 (by decide) (by decide) (by decide) (by decide) (by decide)
      (by decide) (by decide) (by decide) (by decide) (by decide)).2.2.2 _ rfl⟩

/-- A non-empty string has positive length. -/
lemma not_length_lt_one_of_ne_empty (s : String) (h : s ≠ "") : ¬ s.length < 1 := by
  simp only [String.length, Nat.not_lt]
  have hd : s.data ≠ [] := fun hnil => h (by cases s; simp_all)
  have := List.length_pos.mpr hd
  omega

/-- C5 counterexample: a category of a single space passes validation
(`min_length=1` counts the raw string), and the row is persisted with the
trimmed — empty — category; the create does not fail with InvalidInput. -/
theorem whitespace_category_accepted :
    addExpense [] 1 ⟨2024, 1, 1⟩ 0 ⟨100, " ", none, some "2024-03-15"⟩ =
      .ok ([⟨1, 100, "", "", ⟨2024, 3, 15⟩, 0⟩], ⟨1, 100, "", "", ⟨2024, 3, 15⟩, 0⟩) := rfl

/-- C5 amended: create rejects — as an HTTP 422 validation error,
persisting nothing — exactly the categories that are empty before
trimming; any category of raw length ≥ 1, whitespace-only included, is
accepted, and the stored category is the trimmed value. -/
theorem category_empty_check_pretrim
    (store : List Expense) (nextId : Nat) (today : Date) (now : Nat)
    (p : ExpenseCreate) (s : String) (d : Date)
    (hamt : 0 < p.amount) (hs : p.expenseDate = some s) (hne : s ≠ "")
    (hd : parseYmd s = some d) :
    (p.category = "" →
      addExpense store nextId today now p =
        .error ⟨422, "String should have at least 1 character"⟩) ∧
    (p.category ≠ "" →
      addExpense store nextId today now p =
        .ok (store ++ [⟨nextId, p.amount, strTrim p.category,
               strTrim (p.description.getD ""), d, now⟩],
             ⟨nextId, p.amount, strTrim p.category,
              strTrim (p.description.getD ""), d, now⟩)) := by
  constructor
  · intro hcat
    have hval : validateExpenseCreate p =
        some ⟨422, "String should have at least 1 character"⟩ := by
      unfold validateExpenseCreate
      rw [if_neg (by omega), if_pos (by rw [hcat]; decide)]
    simp only [addExpense, hval]
  · intro hcat
    have hval : validateExpenseCreate p = none := by
      unfold validateExpenseCreate
      rw [if_neg (by omega), if_neg (not_length_lt_one_of_ne_empty _ hcat)]
    simp only [addExpense, hval, hs, if_neg hne, hd]

/-- Witness for `category_empty_check_pretrim` with the whitespace-only
category " ". -/
theorem category_empty_check_pretrim_witness :
    addExpense [] 7 ⟨2024, 1, 1⟩ 3 ⟨50, " ", none, some "2024-03-15"⟩ =
      .ok ([⟨7, 50, strTrim " ", strTrim ((none : Option String).getD ""), ⟨2024, 3, 15⟩, 3⟩],
           ⟨7, 50, strTrim " ", strTrim ((none : Option String).getD ""), ⟨2024, 3, 15⟩, 3⟩) :=
  (category_empty_check_pretrim [] 7 ⟨2024, 1, 1⟩ 3
    ⟨50, " ", none, some "2024-03-15"⟩ "2024-03-15" ⟨2024, 3, 15⟩
    (by decide) rfl (by decide) (by decide)).2 (by decide)

/-- C7 counterexample: `amount = 0` is rejected at the pydantic boundary,
which FastAPI answers with HTTP status 422 — not 400 as claimed. -/
theorem nonpositive_amount_status_422 :
    addExpense [] 1 ⟨2024, 1, 1⟩ 0 ⟨0, "food", none, some "2024-03-15"⟩ =
      .error ⟨422, "Input should be greater than 0"⟩ ∧ (422 : Nat) ≠ 400 :=
  ⟨rfl, by decide⟩

/-- C7 amended: a create with `amount ≤ 0` always fails as a client error
with HTTP status 422 (FastAPI validation error), persisting nothing, and a
create with amount 0.01 — one cent — and valid other fields succeeds. -/
theorem amount_validation_bounds
    (store : List Expense) (nextId : Nat) (today : Date) (now : Nat)
    (amt : Int) (c : String) (desc : Option String) (s : String) (d : Date)
    (hc : c ≠ "") (hne : s ≠ "") (hd : parseYmd s = some d) :
    (amt ≤ 0 → addExpense store nextId today now ⟨amt, c, desc, some s⟩ =
        .error ⟨422, "Input should be greater than 0"⟩) ∧
    addExpense store nextId today now ⟨1, c, desc, some s⟩ =
      .ok (store ++ [⟨nextId, 1, strTrim c, strTrim (desc.getD ""), d, now⟩],
           ⟨nextId, 1, strTrim c, strTrim (desc.getD ""), d, now⟩) := by
  constructor
  · intro hamt
    have hval : validateExpenseCreate ⟨amt, c, desc, some s⟩ =
        some ⟨422, "Input should be greater than 0"⟩ := by
      unfold validateExpenseCreate
      rw [if_pos hamt]
    simp only [addExpense, hval]
  · have hval : validateExpenseCreate ⟨1, c, desc, some s⟩ = none := by
      unfold validateExpenseCreate
      rw [if_neg (show ¬(1 : Int) ≤ 0 by omega), if_neg (not_length_lt_one_of_ne_empty _ hc)]
    simp only [addExpense, hval, if_neg hne, hd]

/-- Witness for `amount_validation_bounds` (amount −5 rejected, amount one
cent accepted). -/
theorem amount_validation_bounds_witness :
    addExpense [] 1 ⟨2024, 1, 1⟩ 0 ⟨-5, "food", none, some "2024-03-15"⟩ =
      .error ⟨422, "Input should be greater than 0"⟩ ∧
    addExpense [] 1 ⟨2024, 1, 1⟩ 0 ⟨1, "food", none, some "2024-03-15"⟩ =
      .ok ([⟨1, 1, strTrim "food", strTrim ((none : Option String).getD ""), ⟨2024, 3, 15⟩, 0⟩],
           ⟨1, 1, strTrim "food", strTrim ((none : Option String).getD ""), ⟨2024, 3, 15⟩, 0⟩) :=
  ⟨(amount_validation_bounds [] 1 ⟨2024, 1, 1⟩ 0 (-5) "food" none "2024-03-15" ⟨2024, 3, 15⟩
      (by decide) (by decide) (by decide)).1 (by decide),
   (amount_validation_bounds [] 1 ⟨2024, 1, 1⟩ 0 (-5) "food" none "2024-03-15" ⟨2024, 3, 15⟩
      (by decide) (by decide) (by decide)).2⟩

/-- C8 counterexample: `limit = 0` is rejected by the `Query` constraint,
which FastAPI answers with HTTP status 422 — not 400 as claimed. -/
theorem limit_zero_status_422 :
    listExpenses [] none none none 0 0 = .error ⟨422, "limit out of range"⟩ ∧
    (422 : Nat) ≠ 400 :=
  ⟨rfl, by decide⟩

/-- C8 amended: a limit outside [1, 1000] or an offset below 0 is rejected
as a client error with HTTP status 422 before the store is queried — never
clamped — while in-range values are passed through unchanged to the
`LIMIT`/`OFFSET` slice, with defaults limit 200 and offset 0. -/
theorem limit_offset_checked_before_store
    (store : List Expense) (sd ed cat : Option String) (lim off : Int) :
    ((lim < 1 ∨ 1000 < lim) →
       listExpenses store sd ed cat lim off = .error ⟨422, "limit out of range"⟩) ∧
    (1 ≤ lim → lim ≤ 1000 → off < 0 →
       listExpenses store sd ed cat lim off = .error ⟨422, "offset out of range"⟩) ∧
    (1 ≤ lim → lim ≤ 1000 → 0 ≤ off →
       listExpenses store none none cat lim off =
         .ok (((List.insertionSort listOrd (store.filter (keepRow none none cat))).drop
           off.toNat).take lim.toNat)) ∧
    defaultLimit = 200 ∧ defaultOffset = 0 := by
  refine ⟨?_, ?_, ?_, rfl, rfl⟩
  · intro hlim
    unfold listExpenses
    rw [if_pos (by omega)]
  · intro h1 h2 hoff
    unfold listExpenses
    rw [if_neg (by omega), if_pos hoff]
  · intro h1 h2 hoff
    unfold listExpenses
    rw [if_neg (by omega), if_neg (by omega)]
    simp only [Option.any_none, Bool.false_eq_true, if_false]

/-- Witness for `limit_offset_checked_before_store` at limit 1001, at
offset −1, and at the in-range pair limit 5, offset 0. -/
theorem limit_offset_checked_witness :
    listExpenses [] none none none 1001 0 = .error ⟨422, "limit out of range"⟩ ∧
    listExpenses [] none none none 5 (-1) = .error ⟨422, "offset out of range"⟩ ∧
    listExpenses [] none none none 5 0 =
      .ok (((List.insertionSort listOrd (([] : List Expense).filter
        (keepRow none none none))).drop (0 : Int).toNat).take (5 : Int).toNat) ∧
    defaultLimit = 200 ∧ defaultOffset = 0 :=
  ⟨(limit_offset_checked_before_store [] none none none 1001 0).1 (by decide),
   (limit_offset_checked_before_store [] none none none 5 (-1)).2.1
     (by decide) (by decide) (by decide),
   (limit_offset_checked_before_store [] none none none 5 0).2.2.1
     (by decide) (by decide) (by decide),
   (limit_offset_checked_before_store [] none none none 5 0).2.2.2⟩

/-- C9: delete fails NotFound when no row has the id; a successful delete
returns the deleted id, and a subsequent get of that id yields NotFound —
the row is removed. -/
theorem delete_then_get (store : List Expense) (id : Nat) :
    ((∀ e ∈ store, e.id ≠ id) →
       deleteExpense store id = .error ⟨404, "Expense not found"⟩) ∧
    (∀ st did, deleteExpense store id = .ok (st, did) →
       did = id ∧ getExpense st id = .error ⟨404, "Expense not found"⟩) := by
  constructor
  · intro habs
    unfold deleteExpense
    rw [List.find?_eq_none.mpr (fun e he => by simpa using habs e he)]
  · intro st did h
    unfold deleteExpense at h
    cases hf : store.find? (fun e => e.id == id) with
    | none => rw [hf] at h; exact absurd h (by simp)
    | some e =>
        rw [hf] at h
        simp only [Except.ok.injEq, Prod.mk.injEq] at h
        obtain ⟨hst, hdid⟩ := h
        refine ⟨hdid.symm, ?_⟩
        subst hst
        unfold getExpense
        rw [List.find?_eq_none.mpr (fun x hx => by
          have hxp := (List.mem_filter.mp hx).2
          simpa using hxp)]

/-- Witness for `delete_then_get`: deleting the only row with id 5, then
fetching id 5. -/
theorem delete_then_get_witness :
    (5 : Nat) = 5 ∧ getExpense [] 5 = .error ⟨404, "Expense not found"⟩ :=
  (delete_then_get [⟨5, 100, "food", "", ⟨2024, 3, 15⟩, 0⟩] 5).2 [] 5 rfl

/-- A digit character is not a dash. -/
lemma ne_dash_of_isDigit (c : Char) (h : c.isDigit = true) : ¬ c = '-' := by
  rintro rfl
  exact absurd h (by decide)

/-- `digitChar` produces a digit distinct from the dash whose value
round-trips. -/
lemma digitChar_facts (k : Nat) (hk : k < 10) :
    (digitChar k).isDigit = true ∧ ¬ digitChar k = '-' ∧ digitVal (digitChar k) = k := by
  interval_cases k <;> exact ⟨by decide, by decide, by decide⟩

/-- `splitDash` recovers the three groups of a dash-separated
year-month-day character list. -/
lemma splitDash_ymd (y1 y2 y3 y4 m1 m2 d1 d2 : Char)
    (h1 : ¬ y1 = '-') (h2 : ¬ y2 = '-') (h3 : ¬ y3 = '-') (h4 : ¬ y4 = '-')
    (h5 : ¬ m1 = '-') (h6 : ¬ m2 = '-') (h7 : ¬ d1 = '-') (h8 : ¬ d2 = '-') :
    splitDash [y1, y2, y3, y4, '-', m1, m2, '-', d1, d2] =
      [[y1, y2, y3, y4], [m1, m2], [d1, d2]] := by
  simp [splitDash, h1, h2, h3, h4, h5, h6, h7, h8]

/-- When the dash-split of the input has exactly three groups, parsing
reduces to the group checks. -/
lemma parseYmd_split (s : String) (ys ms ds : List Char)
    (h : splitDash s.toList = [ys, ms, ds]) :
    parseYmd s = parseGroups ys ms ds := by
  unfold parseYmd
  rw [h]

/-- Value of a four-digit group. -/
lemma natOfDigits_four (a b c d : Char) :
    natOfDigits [a, b, c, d] =
      digitVal a * 1000 + digitVal b * 100 + digitVal c * 10 + digitVal d := by
  simp only [natOfDigits, List.foldl]
  ring

/-- Value of a two-digit group. -/
lemma natOfDigits_two (a b : Char) :
    natOfDigits [a, b] = digitVal a * 10 + digitVal b := by
  simp only [natOfDigits, List.foldl]
  ring

/-- Every month has at most 31 days. -/
lemma daysInMonth_le_31 (y m : Nat) : daysInMonth y m ≤ 31 := by
  unfold daysInMonth
  split
  · split <;> omega
  · split <;> omega

/-- `strptime` accepts `isoformat()` output: parsing inverts rendering on
valid dates. -/
lemma parseYmd_iso (d : Date) (hv : d.valid = true) : parseYmd d.iso = some d := by
  have hvp : 1 ≤ d.year ∧ d.year ≤ 9999 ∧ 1 ≤ d.month ∧ d.month ≤ 12 ∧
      1 ≤ d.day ∧ d.day ≤ daysInMonth d.year d.month := by
    unfold Date.valid at hv
    simp only [Bool.and_eq_true, decide_eq_true_eq] at hv
    tauto
  have f1 := digitChar_facts (d.year / 1000 % 10) (Nat.mod_lt _ (by omega))
  have f2 := digitChar_facts (d.year / 100 % 10) (Nat.mod_lt _ (by omega))
  have f3 := digitChar_facts (d.year / 10 % 10) (Nat.mod_lt _ (by omega))
  have f4 := digitChar_facts (d.year % 10) (Nat.mod_lt _ (by omega))
  have f5 := digitChar_facts (d.month / 10 % 10) (Nat.mod_lt _ (by omega))
  have f6 := digitChar_facts (d.month % 10) (Nat.mod_lt _ (by omega))
  have f7 := digitChar_facts (d.day / 10 % 10) (Nat.mod_lt _ (by omega))
  have f8 := digitChar_facts (d.day % 10) (Nat.mod_lt _ (by omega))
  have hiso : d.iso.toList =
      [digitChar (d.year / 1000 % 10), digitChar (d.year / 100 % 10),
       digitChar (d.year / 10 % 10), digitChar (d.year % 10), '-',
       digitChar (d.month / 10 % 10), digitChar (d.month % 10), '-',
       digitChar (d.day / 10 % 10), digitChar (d.day % 10)] := rfl
  have hsplit : splitDash d.iso.toList =
      [[digitChar (d.year / 1000 % 10), digitChar (d.year / 100 % 10),
        digitChar (d.year / 10 % 10), digitChar (d.year % 10)],
       [digitChar (d.month / 10 % 10), digitChar (d.month % 10)],
       [digitChar (d.day / 10 % 10), digitChar (d.day % 10)]] := by
    rw [hiso]
    exact splitDash_ymd _ _ _ _ _ _ _ _
      f1.2.1 f2.2.1 f3.2.1 f4.2.1 f5.2.1 f6.2.1 f7.2.1 f8.2.1
  rw [parseYmd_split _ _ _ _ hsplit]
  unfold parseGroups
  rw [if_pos (by
    refine ⟨rfl, ?_, by simp, by simp, ?_, by simp, by simp, ?_⟩ <;>
      simp [allDigits, f1.1, f2.1, f3.1, f4.1, f5.1, f6.1, f7.1, f8.1])]
  have hy : natOfDigits [digitChar (d.year / 1000 % 10), digitChar (d.year / 100 % 10),
      digitChar (d.year / 10 % 10), digitChar (d.year % 10)] = d.year := by
    rw [natOfDigits_four, f1.2.2, f2.2.2, f3.2.2, f4.2.2]
    omega
  have hm : natOfDigits [digitChar (d.month / 10 % 10), digitChar (d.month % 10)] = d.month := by
    rw [natOfDigits_two, f5.2.2, f6.2.2]
    omega
  have hd : natOfDigits [digitChar (d.day / 10 % 10), digitChar (d.day % 10)] = d.day := by
    rw [natOfDigits_two, f7.2.2, f8.2.2]
    have h31 := daysInMonth_le_31 d.year d.month
    omega
  simp only [hy, hm, hd]
  rw [if_pos (by tauto)]

/-- C10: a create whose `expense_date` is supplied as the empty string is
not rejected: `payload.expense_date or date.today().isoformat()` treats
the falsy empty string like an omitted field, so the expense is persisted
with today's date. -/
theorem empty_date_defaults_today
    (store : List Expense) (nextId : Nat) (today : Date) (now : Nat)
    (p : ExpenseCreate) (hamt : 0 < p.amount) (hcat : p.category ≠ "")
    (hed : p.expenseDate = some "") (hv : today.valid = true) :
    addExpense store nextId today now p =
      .ok (store ++ [⟨nextId, p.amount, strTrim p.category,
             strTrim (p.description.getD ""), today, now⟩],
           ⟨nextId, p.amount, strTrim p.category,
            strTrim (p.description.getD ""), today, now⟩) ∧
    addExpense store nextId today now p =
      addExpense store nextId today now ⟨p.amount, p.category, p.description, none⟩ := by
  have hval : validateExpenseCreate p = none := by
    unfold validateExpenseCreate
    rw [if_neg (by omega), if_neg (not_length_lt_one_of_ne_empty _ hcat)]
  have hval2 : validateExpenseCreate ⟨p.amount, p.category, p.description, none⟩ = none := by
    unfold validateExpenseCreate at hval ⊢
    exact hval
  constructor
  · simp [addExpense, hval, hed, parseYmd_iso today hv]
  · simp [addExpense, hval, hval2, hed, parseYmd_iso today hv]

/-- Witness for `empty_date_defaults_today` with `expense_date` given as
the empty string and today 2024-06-01. -/
theorem empty_date_defaults_today_witness :
    addExpense [] 1 ⟨2024, 6, 1⟩ 9 ⟨100, "food", none, some ""⟩ =
      .ok ([⟨1, 100, strTrim "food", strTrim ((none : Option String).getD ""), ⟨2024, 6, 1⟩, 9⟩],
           ⟨1, 100, strTrim "food", strTrim ((none : Option String).getD ""), ⟨2024, 6, 1⟩, 9⟩) ∧
    addExpense [] 1 ⟨2024, 6, 1⟩ 9 ⟨100, "food", none, some ""⟩ =
      addExpense [] 1 ⟨2024, 6, 1⟩ 9 ⟨100, "food", none, none⟩ :=
  empty_date_defaults_today [] 1 ⟨2024, 6, 1⟩ 9 ⟨100, "food", none, some ""⟩
    (by decide) (by decide) rfl (by decide)

/-- C6 counterexample: "2024-3-5" is not in the strict zero-padded form
the claim requires, yet the code accepts it — `strptime` tolerates
unpadded month and day — and `list` succeeds with it as `start_date`. -/
theorem unpadded_date_accepted :
    strictYmd "2024-3-5" = false ∧
    parseYmd "2024-3-5" = some ⟨2024, 3, 5⟩ ∧
    listExpenses [] (some "2024-3-5") none none 200 0 = .ok [] :=
  ⟨rfl, rfl, rfl⟩

/-- Every strictly formatted date string is accepted by `strptime`. -/
lemma strictYmd_parse (s : String) (h : strictYmd s = true) :
    (parseYmd s).isSome = true := by
  unfold strictYmd at h
  split at h
  next y1 y2 y3 y4 c1 m1 m2 c2 d1 d2 heq =>
    simp only [Bool.and_eq_true, beq_iff_eq] at h
    obtain ⟨⟨⟨hc1, hc2⟩, hdig⟩, hval⟩ := h
    subst hc1
    subst hc2
    simp only [allDigits, List.all_cons, List.all_nil, Bool.and_eq_true,
      Bool.and_true] at hdig
    obtain ⟨hy1, hy2, hy3, hy4, hm1, hm2, hd1, hd2⟩ := hdig
    have hsplit : splitDash s.toList = [[y1, y2, y3, y4], [m1, m2], [d1, d2]] := by
      rw [heq]
      exact splitDash_ymd _ _ _ _ _ _ _ _
        (ne_dash_of_isDigit _ hy1) (ne_dash_of_isDigit _ hy2)
        (ne_dash_of_isDigit _ hy3) (ne_dash_of_isDigit _ hy4)
        (ne_dash_of_isDigit _ hm1) (ne_dash_of_isDigit _ hm2)
        (ne_dash_of_isDigit _ hd1) (ne_dash_of_isDigit _ hd2)
    unfold Date.valid at hval
    simp only [Bool.and_eq_true, decide_eq_true_eq] at hval
    rw [parseYmd_split _ _ _ _ hsplit]
    unfold parseGroups
    rw [if_pos (by
      refine ⟨rfl, ?_, by simp, by simp, ?_, by simp, by simp, ?_⟩ <;>
        simp [allDigits, hy1, hy2, hy3, hy4, hm1, hm2, hd1, hd2])]
    rw [if_pos (by tauto)]
    rfl
  next => simp at h

/-- C6 amended: a date-like input to create or list is accepted exactly
when `parseYmd` succeeds — Python `strptime("%Y-%m-%d")`: three
dash-separated all-digit groups, a four-digit year and one- or two-digit
month and day (zero padding optional) naming a valid calendar date; any
other value fails with HTTP 400 before any storage access, and every
strictly zero-padded value is still accepted. -/
theorem date_validation_lenient
    (store : List Expense) (nextId : Nat) (today : Date) (now : Nat)
    (amt : Int) (c : String) (desc : Option String)
    (s : String) (cat : Option String) (lim off : Int)
    (hlim1 : 1 ≤ lim) (hlim2 : lim ≤ 1000) (hoff : 0 ≤ off)
    (hamt : 0 < amt) (hc : c ≠ "") (hne : s ≠ "") :
    ((listExpenses store (some s) none cat lim off).isOk = (parseYmd s).isSome) ∧
    ((parseYmd s).isSome = false →
      listExpenses store (some s) none cat lim off =
        .error ⟨400, "start_date must be YYYY-MM-DD"⟩) ∧
    ((listExpenses store none (some s) cat lim off).isOk = (parseYmd s).isSome) ∧
    ((parseYmd s).isSome = false →
      listExpenses store none (some s) cat lim off =
        .error ⟨400, "end_date must be YYYY-MM-DD"⟩) ∧
    ((addExpense store nextId today now ⟨amt, c, desc, some s⟩).isOk = (parseYmd s).isSome) ∧
    ((parseYmd s).isSome = false →
      addExpense store nextId today now ⟨amt, c, desc, some s⟩ =
        .error ⟨400, "expense_date must be YYYY-MM-DD"⟩) ∧
    (strictYmd s = true → (parseYmd s).isSome = true) := by
  have hval : validateExpenseCreate ⟨amt, c, desc, some s⟩ = none := by
    unfold validateExpenseCreate
    rw [if_neg (show ¬amt ≤ 0 by omega), if_neg (not_length_lt_one_of_ne_empty _ hc)]
  cases hp : parseYmd s with
  | none =>
      have e1 : listExpenses store (some s) none cat lim off =
          .error ⟨400, "start_date must be YYYY-MM-DD"⟩ := by
        unfold listExpenses
        rw [if_neg (by omega), if_neg (by omega), if_pos (by simp [hp])]
      have e2 : listExpenses store none (some s) cat lim off =
          .error ⟨400, "end_date must be YYYY-MM-DD"⟩ := by
        unfold listExpenses
        rw [if_neg (by omega), if_neg (by omega), if_neg (by simp),
          if_pos (by simp [hp])]
      have e3 : addExpense store nextId today now ⟨amt, c, desc, some s⟩ =
          .error ⟨400, "expense_date must be YYYY-MM-DD"⟩ := by
        simp only [addExpense, hval, if_neg hne, hp]
      refine ⟨by rw [e1]; rfl, fun _ => e1, by rw [e2]; rfl, fun _ => e2,
        by rw [e3]; rfl, fun _ => e3, fun hstrict => hp ▸ strictYmd_parse s hstrict⟩
  | some d =>
      have o1 : (listExpenses store (some s) none cat lim off).isOk = true := by
        unfold listExpenses
        rw [if_neg (by omega), if_neg (by omega), if_neg (by simp [hp])]
        rfl
      have o2 : (listExpenses store none (some s) cat lim off).isOk = true := by
        unfold listExpenses
        rw [if_neg (by omega), if_neg (by omega), if_neg (by simp),
          if_neg (by simp [hp])]
        rfl
      have o3 : (addExpense store nextId today now ⟨amt, c, desc, some s⟩).isOk = true := by
        simp only [addExpense, hval, if_neg hne, hp]
        rfl
      refine ⟨by rw [o1]; rfl, fun hfalse => by simp at hfalse,
        by rw [o2]; rfl, fun hfalse => by simp at hfalse,
        by rw [o3]; rfl, fun hfalse => by simp at hfalse,
        fun _ => rfl⟩

/-- Witness for `date_validation_lenient` with the unpadded date
"2024-3-5". -/
theorem date_validation_lenient_witness :
    ((listExpenses [] (some "2024-3-5") none none 200 0).isOk =
      (parseYmd "2024-3-5").isSome) ∧
    ((listExpenses [] none (some "2024-3-5") none 200 0).isOk =
      (parseYmd "2024-3-5").isSome) ∧
    ((addExpense [] 1 ⟨2024, 1, 1⟩ 0 ⟨100, "food", none, some "2024-3-5"⟩).isOk =
      (parseYmd "2024-3-5").isSome) :=
  ⟨(date_validation_lenient [] 1 ⟨2024, 1, 1⟩ 0 100 "food" none "2024-3-5" none 200 0
      (by decide) (by decide) (by decide) (by decide) (by decide) (by decide)).1,
   (date_validation_lenient [] 1 ⟨2024, 1, 1⟩ 0 100 "food" none "2024-3-5" none 200 0
      (by decide) (by decide) (by decide) (by decide) (by decide) (by decide)).2.2.1,
   (date_validation_lenient [] 1 ⟨2024, 1, 1⟩ 0 100 "food" none "2024-3-5" none 200 0
      (by decide) (by decide) (by decide) (by decide) (by decide) (by decide)).2.2.2.2.1⟩

end Budget
